import Mathlib

/-!
Shallow embedding of the time-budget and gating engine of the Game Sentry
parental-control application (`game_sentry.py`).  Timestamps are modelled as
proleptic-Gregorian calendar date-times at one-second granularity; the rest
(cooldown) tracker additionally uses a microsecond granularity because the
source stores sub-second `datetime.now()` values there and truncates with
`int(...)`.  Firestore user documents are modelled as records of optional
fields (an absent dictionary key is `none`), and `dict.get(k, d)` becomes
`Option.getD`.
-/

namespace GameSentry

/-- A time of day, as produced by `datetime.time` (seconds included, since
`datetime.now().time()` carries them). -/
structure Time where
  h : Nat
  mi : Nat
  s : Nat
deriving DecidableEq

/-- Seconds since midnight; Python compares `time` objects chronologically. -/
def Time.toSecs (t : Time) : Nat := t.h * 3600 + t.mi * 60 + t.s

/-- `a <= b` on times of day. -/
def timeLe (a b : Time) : Bool := a.toSecs ≤ b.toSecs

/-- A calendar date, as produced by `datetime.date`. -/
structure Date where
  y : Nat
  mo : Nat
  d : Nat
deriving DecidableEq

/-- A local calendar date-time, as produced by `datetime.datetime` (whole
seconds; the microsecond part is zero everywhere the session logic parses or
formats timestamps). -/
structure DateTime where
  y : Nat
  mo : Nat
  d : Nat
  h : Nat
  mi : Nat
  s : Nat
deriving DecidableEq

def isLeap (y : Nat) : Bool := (y % 4 == 0 && y % 100 != 0) || y % 400 == 0

def daysInMonth (y mo : Nat) : Nat :=
  match mo with
  | 1 => 31 | 3 => 31 | 5 => 31 | 7 => 31 | 8 => 31 | 10 => 31 | 12 => 31
  | 4 => 30 | 6 => 30 | 9 => 30 | 11 => 30
  | 2 => if isLeap y then 29 else 28
  | _ => 0

/-- Days in all months strictly before `mo` of year `y`. -/
def daysBeforeMonth (y mo : Nat) : Nat :=
  (List.range (mo - 1)).foldl (fun a i => a + daysInMonth y (i + 1)) 0

/-- Proleptic-Gregorian ordinal of a date (like Python `date.toordinal`). -/
def Date.toOrdinal (dt : Date) : Nat :=
  365 * (dt.y - 1) + (dt.y - 1) / 4 - (dt.y - 1) / 100 + (dt.y - 1) / 400
    + daysBeforeMonth dt.y dt.mo + dt.d

def DateTime.dateOf (dt : DateTime) : Date := ⟨dt.y, dt.mo, dt.d⟩

def DateTime.timeOf (dt : DateTime) : Time := ⟨dt.h, dt.mi, dt.s⟩

/-- Absolute second count of a date-time; chronological comparison of valid
Python `datetime`s agrees with comparison of these numbers. -/
def DateTime.epochSecs (dt : DateTime) : Nat :=
  dt.dateOf.toOrdinal * 86400 + dt.h * 3600 + dt.mi * 60 + dt.s

/-- `a.date() == b.date()`. -/
def sameDate (a b : DateTime) : Bool := a.dateOf == b.dateOf

/-- Calendar successor day (used for the manual-entry overnight fix,
`stop_dt += timedelta(days=1)`). -/
def DateTime.addOneDay (dt : DateTime) : DateTime :=
  if dt.d + 1 ≤ daysInMonth dt.y dt.mo then { dt with d := dt.d + 1 }
  else if dt.mo + 1 ≤ 12 then { dt with mo := dt.mo + 1, d := 1 }
  else { dt with y := dt.y + 1, mo := 1, d := 1 }

/-! ### Parsing (`datetime.strptime` and `int`)

Implemented over `List Char` (`String.data`) so that every parser is a
structurally recursive, kernel-evaluable function. -/

/-- Split a character list at every occurrence of `c` (like `str.split(c)`:
always at least one, possibly empty, field). -/
def splitOnCh (c : Char) : List Char → List (List Char)
  | [] => [[]]
  | x :: xs =>
    match splitOnCh c xs with
    | [] => if x == c then [[], []] else [[x]]
    | h :: t => if x == c then [] :: h :: t else (x :: h) :: t

def isDigitCh (c : Char) : Bool := 48 ≤ c.toNat && c.toNat ≤ 57

/-- The numeric value of a nonempty all-digit field; `none` otherwise. -/
def digitsVal : List Char → Option Nat
  | [] => none
  | l =>
    if l.all isDigitCh then
      some (l.foldl (fun a c => a * 10 + (c.toNat - 48)) 0)
    else none

/-- A 1-or-2-digit field of `strptime` (`%m`, `%d`, `%H`, `%M`, `%S`),
constrained to `[lo, hi]`. -/
def parse2 (lo hi : Nat) (s : List Char) : Option Nat :=
  if s.length = 1 ∨ s.length = 2 then
    match digitsVal s with
    | some v => if lo ≤ v ∧ v ≤ hi then some v else none
    | none => none
  else none

/-- The 4-digit `%Y` field of `strptime` (year 1–9999). -/
def parse4 (s : List Char) : Option Nat :=
  if s.length = 4 then
    match digitsVal s with
    | some v => if 1 ≤ v then some v else none
    | none => none
  else none

/-- `datetime.strptime(s, "%H:%M").time()` — `none` models `ValueError`. -/
def parseHM (s : String) : Option Time :=
  match splitOnCh ':' s.data with
  | [hs, ms] =>
    match parse2 0 23 hs, parse2 0 59 ms with
    | some h, some m => some ⟨h, m, 0⟩
    | _, _ => none
  | _ => none

/-- `datetime.strptime(s, "%Y-%m-%d").date()` on a character list. -/
def parseDateChars (s : List Char) : Option Date :=
  match splitOnCh '-' s with
  | [ys, mos, ds] =>
    match parse4 ys, parse2 1 12 mos, parse2 1 31 ds with
    | some y, some mo, some d => if d ≤ daysInMonth y mo then some ⟨y, mo, d⟩ else none
    | _, _, _ => none
  | _ => none

/-- `datetime.strptime(s, "%Y-%m-%d").date()`. -/
def parseDate (s : String) : Option Date := parseDateChars s.data

/-- `datetime.strptime(s, "%Y-%m-%d %H:%M:%S")`. -/
def parseDateTime (s : String) : Option DateTime :=
  match splitOnCh ' ' s.data with
  | [ds, ts] =>
    match parseDateChars ds, splitOnCh ':' ts with
    | some dt, [hs, ms, ss] =>
      match parse2 0 23 hs, parse2 0 59 ms, parse2 0 59 ss with
      | some h, some mi, some sec => some ⟨dt.y, dt.mo, dt.d, h, mi, sec⟩
      | _, _, _ => none
    | _, _ => none
  | _ => none

/-- `datetime.strptime(s, "%Y-%m-%d %H:%M")` (manual-entry dialog). -/
def parseDateTimeHM (s : String) : Option DateTime :=
  match splitOnCh ' ' s.data with
  | [ds, ts] =>
    match parseDateChars ds, splitOnCh ':' ts with
    | some dt, [hs, ms] =>
      match parse2 0 23 hs, parse2 0 59 ms with
      | some h, some mi => some ⟨dt.y, dt.mo, dt.d, h, mi, 0⟩
      | _, _ => none
    | _, _ => none
  | _ => none

def isSpaceCh (c : Char) : Bool := c == ' ' || c == '\t' || c == '\n' || c == '\r'

/-- Python `int(s)` on a string field: surrounding whitespace stripped,
optional sign, decimal digits. -/
def pyInt (s : List Char) : Option Int :=
  let t := ((s.dropWhile isSpaceCh).reverse.dropWhile isSpaceCh).reverse
  match t with
  | '-' :: rest =>
    match digitsVal rest with
    | some n => some (-(n : Int))
    | none => none
  | '+' :: rest =>
    match digitsVal rest with
    | some n => some (n : Int)
    | none => none
  | _ =>
    match digitsVal t with
    | some n => some (n : Int)
    | none => none

/-- The duration-field reader of the usage calculators: split on `":"`, expect
exactly three parts, convert each with `int`, total the seconds.  `none` covers
both the `len(time_parts) == 3` failure and a `ValueError` from `int` — in
either case the session entry contributes nothing. -/
def parseDurationHMS (s : String) : Option Int :=
  match splitOnCh ':' s.data with
  | [a, b, c] =>
    match pyInt a, pyInt b, pyInt c with
    | some h, some m, some sec => some (h * 3600 + m * 60 + sec)
    | _, _, _ => none
  | _ => none

/-! ### Formatting -/

def pad2 (n : Nat) : String := if n < 10 then "0" ++ toString n else toString n

def pad4 (n : Nat) : String :=
  if n < 10 then "000" ++ toString n
  else if n < 100 then "00" ++ toString n
  else if n < 1000 then "0" ++ toString n
  else toString n

/-- `str(date)` / the `%Y-%m-%d` part of `strftime`. -/
def dateString (dt : DateTime) : String :=
  pad4 dt.y ++ "-" ++ pad2 dt.mo ++ "-" ++ pad2 dt.d

/-- `dt.strftime("%Y-%m-%d %H:%M:%S")`. -/
def fmtDateTime (dt : DateTime) : String :=
  dateString dt ++ " " ++ pad2 dt.h ++ ":" ++ pad2 dt.mi ++ ":" ++ pad2 dt.s

/-- `_format_duration(seconds)`: `HH:MM:SS` with floor division. -/
def formatDuration (seconds : Int) : String :=
  let sec := seconds
  pad2 (sec / 3600).toNat ++ ":" ++ pad2 ((sec % 3600) / 60).toNat ++ ":"
    ++ pad2 (sec % 60).toNat

/-! ### Data model -/

/-- A Firestore user document; an absent dictionary key is `none`.
`dict.get(key)` is the field itself and `dict.get(key, dflt)` is
`Option.getD`.  Only claim-relevant fields are modelled. -/
structure UserData where
  id : Option String := none
  maxDailyMinutes : Option Int := none
  maxSessionMinutes : Option Int := none
  enforceRest : Option Bool := none
  restMinutes : Option Int := none
  restDurationMinutes : Option Int := none
  allowedStartTime : Option String := none
  allowedEndTime : Option String := none
  enforceLunchRoutine : Option Bool := none
  lunchStartTime : Option String := none
  lunchEndTime : Option String := none
deriving DecidableEq

/-- A persisted session-log entry, exactly as stored: raw strings.
An absent key behaves as the code's `dict.get` default (`''` for start/stop,
`'00:00:00'` for duration), so storing those defaults loses nothing. -/
structure SessionEntry where
  start : String
  stop : String
  duration : String
deriving DecidableEq

/-- `kid_rest_periods[user_id] = {'start_time': datetime, 'duration_minutes': int}`.
The `start_time` written by `_start_rest_period` is `datetime.now()`, which
carries sub-second precision, so it is kept in microseconds. -/
structure RestState where
  startUs : Nat
  durationMinutes : Int
deriving DecidableEq

/-- `start_time + timedelta(minutes=duration_minutes)` in microseconds. -/
def RestState.endUs (r : RestState) : Int :=
  (r.startUs : Int) + r.durationMinutes * 60000000

/-- Association-list lookup, modelling Python dict access / `dict.get`. -/
def alookup {α β : Type} [BEq α] (l : List (α × β)) (k : α) : Option β :=
  (l.find? (fun p => p.1 == k)).map (fun p => p.2)

/-- The mutable per-application state the claims touch: the Firestore
snapshot plus the in-memory maps of `GameSentryApp`. -/
structure AppState where
  hasDb : Bool
  users : List (String × UserData)
  sessions : List (String × List SessionEntry)
  restPeriods : List (String × RestState)
  dailyFlags : List String
  blockFlags : List String
  timerRunning : Bool
  timerStart : Option DateTime
  currentKid : Option UserData
  lunchConfirmed : List (Option String × Date)
deriving DecidableEq

/-- `get_user(db, user_id)`: `None` when the db handle or document is absent;
on success the document with `id` set to the document id. -/
def getUser (s : AppState) (userId : String) : Option UserData :=
  if !s.hasDb then none
  else (alookup s.users userId).map (fun u => { u with id := some userId })

/-- `get_session_logs_for_user(db, user_id)`: `[]` when the db handle or the
document (or its `sessions` array) is absent. -/
def getSessionLogs (s : AppState) (userId : String) : List SessionEntry :=
  if !s.hasDb then []
  else (alookup s.sessions userId).getD []

/-- Python truthiness of an optional string (`if user_id:`). -/
def optTruthy : Option String → Bool
  | none => false
  | some s => s ≠ ""

/-! ### RestTracker (`kid_rest_periods`) -/

/-- `_start_rest_period(user_id, duration_minutes)`: unconditionally
(over)writes the user's entry with `start_time = now`. -/
def startRestPeriod (rp : List (String × RestState)) (userId : String)
    (nowUs : Nat) (durationMinutes : Int) : List (String × RestState) :=
  (userId, ⟨nowUs, durationMinutes⟩) :: rp.filter (fun p => p.1 != userId)

/-- `_is_user_in_rest(user_id)`: the user has an entry and
`datetime.now() < start_time + duration`. -/
def isUserInRest (rp : List (String × RestState)) (userId : String)
    (nowUs : Nat) : Bool :=
  match alookup rp userId with
  | none => false
  | some r => (nowUs : Int) < r.endUs

/-- `_get_rest_remaining_seconds(user_id)`: `0` if not resting, else
`max(0, int((end - now).total_seconds()))` — note the truncation of the
sub-second remainder. -/
def getRestRemainingSeconds (rp : List (String × RestState)) (userId : String)
    (nowUs : Nat) : Int :=
  if !isUserInRest rp userId nowUs then 0
  else
    match alookup rp userId with
    | none => 0
    | some r => max 0 ((r.endUs - nowUs) / 1000000)

/-- `_check_rest_period_end(user_id, username)`: returns the new rest map and
whether the break-ended notification (tray + email) was raised. -/
def checkRestPeriodEnd (rp : List (String × RestState)) (userId : String)
    (nowUs : Nat) : List (String × RestState) × Bool :=
  if !isUserInRest rp userId nowUs then (rp, false)
  else if getRestRemainingSeconds rp userId nowUs ≤ 0 then
    (rp.filter (fun p => p.1 != userId), true)
  else (rp, false)

/-- `_get_last_rest_end_time(user_id)` in microseconds: the implied end of the
stored rest period if present, else the start of the current calendar day. -/
def lastRestEndUs (rp : List (String × RestState)) (userId : String)
    (now : DateTime) : Int :=
  match alookup rp userId with
  | some r => r.endUs
  | none => (Date.toOrdinal now.dateOf * 86400 : Int) * 1000000

/-! ### UsageCalculator -/

/-- The per-entry body of the usage loops: parse the entry's start, test the
window predicate on it, and on success add the parsed `HH:MM:SS` duration;
any parse failure skips the entry. -/
def sessionContribution (keep : DateTime → Bool) (acc : Int)
    (e : SessionEntry) : Int :=
  match parseDateTime e.start with
  | some st =>
    if keep st then
      match parseDurationHMS e.duration with
      | some d => acc + d
      | none => acc
    else acc
  | none => acc

/-- The live-session addition shared by both calculators: if the timer is
running (with a start time) and the current kid is the queried user, add
`int((now - start).total_seconds())` — with no window test on the live start. -/
def addLiveElapsed (s : AppState) (now : DateTime) (userId : String)
    (total : Int) : Int :=
  match s.timerRunning, s.timerStart with
  | true, some ts =>
    if (s.currentKid.bind (fun u => u.id)) == some userId then
      total + ((now.epochSecs : Int) - ts.epochSecs)
    else total
  | _, _ => total

/-- `_calculate_daily_usage(user_id)`: seconds of persisted sessions that
started today, plus the live session's elapsed time. -/
def calculateDailyUsage (s : AppState) (now : DateTime) (userId : String) : Int :=
  if !s.hasDb then 0
  else
    let total := (getSessionLogs s userId).foldl
      (sessionContribution (fun st => sameDate st now)) 0
    addLiveElapsed s now userId total

/-- `_calculate_block_usage(user_id)`: `0` while resting; otherwise seconds of
persisted sessions that started today at or after the last rest boundary, plus
the live session's elapsed time. -/
def calculateBlockUsage (s : AppState) (now : DateTime) (userId : String) : Int :=
  if !s.hasDb then 0
  else
    match getUser s userId with
    | none => 0
    | some _ =>
      if isUserInRest s.restPeriods userId (now.epochSecs * 1000000) then 0
      else
        let lre := lastRestEndUs s.restPeriods userId now
        let total := (getSessionLogs s userId).foldl
          (sessionContribution
            (fun st => sameDate st now && (st.epochSecs * 1000000 : Int) ≥ lre)) 0
        addLiveElapsed s now userId total

/-- `_calculate_daily_remaining(user_id)`: `0` without a db, user, or
configured `max_daily_minutes`; otherwise `max(0, limit*60 - usage)`. -/
def calculateDailyRemaining (s : AppState) (now : DateTime) (userId : String) : Int :=
  if !s.hasDb then 0
  else
    match getUser s userId with
    | none => 0
    | some u =>
      match u.maxDailyMinutes with
      | none => 0
      | some dailyLimit =>
        max 0 (dailyLimit * 60 - calculateDailyUsage s now userId)

/-- `_format_time_remaining(seconds)`. -/
def formatTimeRemaining (seconds : Int) : String :=
  if seconds ≤ 0 then "No time left"
  else if seconds < 3600 then
    toString (seconds / 60) ++ "m " ++ pad2 (seconds % 60).toNat ++ "s"
  else
    toString (seconds / 3600) ++ "h " ++ pad2 ((seconds % 3600) / 60).toNat
      ++ "m " ++ pad2 ((seconds % 3600) % 60).toNat ++ "s"

/-! ### LimitMonitor -/

/-- `key.split('_', 1)[1]`: the part after the first underscore, `none` when
there is none (the `IndexError` case, which removes the flag). -/
def afterFirstUnderscore : List Char → Option (List Char)
  | [] => none
  | c :: rest => if c == '_' then some rest else afterFirstUnderscore rest

/-- `_cleanup_old_notifications()`: drop every flag whose encoded date is
missing, unparsable, or more than 1 day before `today`. -/
def cleanupOldNotifications (flags : List String) (today : Date) : List String :=
  flags.filter (fun k =>
    match afterFirstUnderscore k.data with
    | none => false
    | some ds =>
      match parseDateChars ds with
      | none => false
      | some d => (today.toOrdinal : Int) - d.toOrdinal ≤ 1)

/-- `_check_daily_limit(user_id, username)`: the new state paired with the
payload `(limit_minutes, usage)` of the LimitReached(daily) notification
(tray + email) when one is raised. -/
def checkDailyLimit (s : AppState) (now : DateTime) (userId : String) :
    AppState × Option (Int × Int) :=
  if !s.hasDb then (s, none)
  else
    match getUser s userId with
    | none => (s, none)
    | some u =>
      match u.maxDailyMinutes with
      | none => (s, none)
      | some dailyLimit =>
        let currentUsage := calculateDailyUsage s now userId
        let todayKey := userId ++ "_" ++ dateString now
        if s.dailyFlags.contains todayKey then (s, none)
        else if currentUsage ≥ dailyLimit then
          ({ s with dailyFlags :=
              cleanupOldNotifications (s.dailyFlags ++ [todayKey]) now.dateOf },
           some (dailyLimit, currentUsage))
        else (s, none)

/-- `_check_block_limit(user_id, username)`: the new state paired with the
payload `(limit_minutes, usage_minutes, rest_minutes)` of the
LimitReached(block) notification when one is raised. -/
def checkBlockLimit (s : AppState) (now : DateTime) (userId : String) :
    AppState × Option (Int × Int × Int) :=
  if !s.hasDb then (s, none)
  else
    match getUser s userId with
    | none => (s, none)
    | some u =>
      let enforceRest := u.enforceRest.getD true
      match u.maxSessionMinutes with
      | none => (s, none)
      | some blockLimit =>
        if !enforceRest then (s, none)
        else
          let currentBlockUsage := calculateBlockUsage s now userId
          let blockLimitSeconds := blockLimit * 60
          let todayKey := "block_" ++ userId ++ "_" ++ dateString now
          if s.blockFlags.contains todayKey then (s, none)
          else if currentBlockUsage ≥ blockLimitSeconds then
            let restDuration := u.restDurationMinutes.getD 60
            ({ s with
                restPeriods := startRestPeriod s.restPeriods userId
                  (now.epochSecs * 1000000) restDuration,
                blockFlags := s.blockFlags ++ [todayKey] },
             some (blockLimit, Int.fdiv currentBlockUsage 60, restDuration))
          else (s, none)

/-! ### GateEvaluator -/

/-- The in-range test of the allowed-hours gate, including the overnight
wrap when `start > end`. -/
def inAllowedRange (allowedStart allowedEnd nowT : Time) : Bool :=
  if timeLe allowedStart allowedEnd then
    timeLe allowedStart nowT && timeLe nowT allowedEnd
  else
    timeLe allowedStart nowT || timeLe nowT allowedEnd

/-- Outcome of `_is_lunch_routine_required()`: whether the start is blocked,
which yes/no questions were shown, and the updated `lunch_confirmed_today`. -/
structure RoutineResult where
  required : Bool
  askedLunch : Bool
  askedTeeth : Bool
  lunchConfirmed : List (Option String × Date)
deriving DecidableEq

/-- `_is_lunch_routine_required()`.  The yes/no dialog answers are supplied as
booleans (`lunchAnswer`, `teethAnswer`); an answer is consulted only when the
corresponding question is actually asked. -/
def isLunchRoutineRequired (currentKid : Option UserData)
    (lunchConfirmed : List (Option String × Date)) (now : DateTime)
    (lunchAnswer teethAnswer : Bool) : RoutineResult :=
  match currentKid with
  | none => ⟨false, false, false, lunchConfirmed⟩
  | some u =>
    if !(u.enforceLunchRoutine.getD false) then ⟨false, false, false, lunchConfirmed⟩
    else
      match parseHM (u.lunchStartTime.getD "12:00"),
            parseHM (u.lunchEndTime.getD "13:00") with
      | some lunchStart, some lunchEnd =>
        if !(timeLe lunchStart now.timeOf && timeLe now.timeOf lunchEnd) then
          ⟨false, false, false, lunchConfirmed⟩
        else
          let uid := u.id
          let today := now.dateOf
          if alookup lunchConfirmed uid == some today then
            ⟨!teethAnswer, false, true, lunchConfirmed⟩
          else if !lunchAnswer then
            ⟨false, true, false, lunchConfirmed⟩
          else
            ⟨!teethAnswer, true, true,
             (uid, today) :: lunchConfirmed.filter (fun p => p.1 != uid)⟩
      | _, _ => ⟨false, false, false, lunchConfirmed⟩

/-- How a start attempt ends: blocked by the routine gate, blocked by the
allowed-hours gate, blocked by an unparsable allowed-hours configuration
("Allowed play hours are not set correctly."), or the timer starts. -/
inductive StartOutcome
  | routineBlocked
  | outsideAllowedHours
  | invalidConfig
  | started
deriving DecidableEq

/-- The gate sequence of the start branch of `start_stop_timer` (timer not
running): lunch/teeth routine first, then allowed play hours. -/
def attemptStart (currentKid : Option UserData)
    (lunchConfirmed : List (Option String × Date)) (now : DateTime)
    (lunchAnswer teethAnswer : Bool) :
    StartOutcome × List (Option String × Date) :=
  let r := isLunchRoutineRequired currentKid lunchConfirmed now lunchAnswer teethAnswer
  if r.required then (.routineBlocked, r.lunchConfirmed)
  else
    match currentKid with
    | some user =>
      match parseHM (user.allowedStartTime.getD "15:00"),
            parseHM (user.allowedEndTime.getD "18:00") with
      | some allowedStart, some allowedEnd =>
        if !inAllowedRange allowedStart allowedEnd now.timeOf then
          (.outsideAllowedHours, r.lunchConfirmed)
        else (.started, r.lunchConfirmed)
      | _, _ => (.invalidConfig, r.lunchConfirmed)
    | none => (.started, r.lunchConfirmed)

/-! ### SessionController (stop branch of `start_stop_timer`) -/

/-- The externally visible steps the stop branch performs, in order. -/
inductive StopAction
  | persistSession
  | stopNotifications
  | dailyLimitCheck
  | blockLimitCheck
deriving DecidableEq

/-- `add_session_log_to_user(db, user_id, entry)`: `ArrayUnion` appends the
entry to an existing document's `sessions` array (no-op duplicate handling,
and `update` fails silently on a missing document). -/
def appendSessionLog (m : List (String × List SessionEntry)) (userId : String)
    (e : SessionEntry) : List (String × List SessionEntry) :=
  m.map (fun p =>
    if p.1 == userId then (p.1, if p.2.contains e then p.2 else p.2 ++ [e])
    else p)

/-- The stop (timer running) branch of `start_stop_timer`: stop the timer,
build the `SessionInterval` from `kid_timer_start_time` and `now`, persist it,
fire the stop notifications, and run `_check_daily_limit`.  Returns the new
state and the list of steps performed. -/
def stopTimer (s : AppState) (now : DateTime) : AppState × List StopAction :=
  let s0 := { s with timerRunning := false }
  match s.timerStart with
  | none => ({ s0 with timerStart := none }, [])
  | some startTime =>
    let duration : Int := (now.epochSecs : Int) - startTime.epochSecs
    let entry : SessionEntry :=
      ⟨fmtDateTime startTime, fmtDateTime now, formatDuration duration⟩
    match s.currentKid with
    | none => ({ s0 with timerStart := none }, [])
    | some ku =>
      let kuId := ku.id
      let s1 := { s0 with sessions :=
        if s0.hasDb && optTruthy kuId then
          appendSessionLog s0.sessions (kuId.getD "") entry
        else s0.sessions }
      if optTruthy kuId then
        let s2 := (checkDailyLimit s1 now (kuId.getD "")).1
        ({ s2 with timerStart := none },
         [.persistSession, .stopNotifications, .dailyLimitCheck])
      else
        ({ s1 with timerStart := none }, [.persistSession, .stopNotifications])

/-! ### User settings form (`_gather_and_save_user`, Kid branch) -/

/-- The budget/gate fields the settings form writes into the user document.
Note which keys it writes: `rest_minutes`, never `rest_duration_minutes`. -/
def gatherKidSettings (u : UserData) (maxSession maxDaily restMins : Int)
    (lunchStart lunchEnd allowedStart allowedEnd : String)
    (enforceLunch : Bool) : UserData :=
  { u with
    maxSessionMinutes := some maxSession,
    maxDailyMinutes := some maxDaily,
    restMinutes := some restMins,
    lunchStartTime := some lunchStart,
    lunchEndTime := some lunchEnd,
    allowedStartTime := some allowedStart,
    allowedEndTime := some allowedEnd,
    enforceLunchRoutine := some enforceLunch }

/-! ### Manual entry and log editing -/

/-- The overlap test both writers use against one existing entry:
`start_dt < other_stop and stop_dt > other_start`, skipping entries whose
bounds do not parse. -/
def overlapPred (sd od : DateTime) (other : SessionEntry) : Bool :=
  match parseDateTime other.start, parseDateTime other.stop with
  | some os, some ot => sd.epochSecs < ot.epochSecs && od.epochSecs > os.epochSecs
  | _, _ => false

/-- `ManualEntryDialog.save`: parse the `%Y-%m-%d %H:%M` fields, apply the
overnight fix, reject on overlap with any existing entry; on success the
stored list becomes the old list with the new entry appended.  `none` means
no write happened. -/
def manualEntrySave (sessions : List SessionEntry)
    (dateStr startStr stopStr : String) : Option (List SessionEntry) :=
  match parseDateTimeHM (dateStr ++ " " ++ startStr),
        parseDateTimeHM (dateStr ++ " " ++ stopStr) with
  | some sd, some st0 =>
    let od := if st0.epochSecs < sd.epochSecs then st0.addOneDay else st0
    let durationSecs : Int := (od.epochSecs : Int) - sd.epochSecs
    if sd.epochSecs > od.epochSecs then none
    else if sessions.any (overlapPred sd od) then none
    else some (sessions ++
      [⟨fmtDateTime sd, fmtDateTime od, formatDuration durationSecs⟩])
  | _, _ => none

/-- The `enumerate(sessions)` overlap scan of `edit_selected_log`, skipping
the edited index. -/
def overlapsOtherIdx : List SessionEntry → Nat → Nat → DateTime → DateTime → Bool
  | [], _, _, _, _ => false
  | e :: rest, cur, skip, sd, od =>
    ((cur != skip) && overlapPred sd od e) || overlapsOtherIdx rest (cur + 1) skip sd od

/-- `edit_selected_log`: validate the edited bounds, reject on overlap with
any other entry, and on success replace the entry in place (the duration
string is stored verbatim).  `none` means no write happened. -/
def editSelectedLog (sessions : List SessionEntry) (sessionIdx : Nat)
    (newStart newStop newDuration : String) : Option (List SessionEntry) :=
  if sessionIdx < sessions.length then
    match parseDateTime newStart, parseDateTime newStop with
    | some sd, some od =>
      if sd.epochSecs > od.epochSecs then none
      else if overlapsOtherIdx sessions 0 sessionIdx sd od then none
      else some (sessions.set sessionIdx ⟨newStart, newStop, newDuration⟩)
    | _, _ => none
  else none

/-! ### Concrete fixtures -/

def dailyBugUser : UserData := { maxDailyMinutes := some 60 }

def twoMinuteSession : SessionEntry :=
  ⟨"2026-03-01 10:00:00", "2026-03-01 10:02:00", "00:02:00"⟩

def twoHourSession : SessionEntry :=
  ⟨"2026-03-01 10:00:00", "2026-03-01 12:00:00", "02:00:00"⟩

def dailyBugState : AppState :=
  { hasDb := true, users := [("kid", dailyBugUser)],
    sessions := [("kid", [twoMinuteSession])],
    restPeriods := [], dailyFlags := [], blockFlags := [],
    timerRunning := false, timerStart := none, currentKid := none,
    lunchConfirmed := [] }

def noonMarch1 : DateTime := ⟨2026, 3, 1, 12, 0, 0⟩

/-- A kid saved through the settings form with a 30-minute rest cooldown. -/
def restBugUser : UserData :=
  gatherKidSettings {} 120 210 30 "12:00" "13:00" "15:00" "18:00" false

def restBugState : AppState :=
  { hasDb := true, users := [("kid", restBugUser)],
    sessions := [("kid", [twoHourSession])],
    restPeriods := [], dailyFlags := [], blockFlags := [],
    timerRunning := false, timerStart := none, currentKid := none,
    lunchConfirmed := [] }

def halfPastNoonMarch1 : DateTime := ⟨2026, 3, 1, 12, 30, 0⟩

def kidOnlyUser : UserData := { id := some "kid" }

def lateFebStart : DateTime := ⟨2026, 2, 28, 23, 0, 0⟩

/-- Live session started yesterday evening, still running after midnight. -/
def crossMidnightState : AppState :=
  { hasDb := true, users := [("kid", kidOnlyUser)], sessions := [("kid", [])],
    restPeriods := [], dailyFlags := [], blockFlags := [],
    timerRunning := true, timerStart := some lateFebStart,
    currentKid := some kidOnlyUser, lunchConfirmed := [] }

def oneAmMarch1 : DateTime := ⟨2026, 3, 1, 1, 0, 0⟩

/-- 60-minute daily budget fully exhausted by a two-hour session. -/
def exhaustedState : AppState :=
  { dailyBugState with sessions := [("kid", [twoHourSession])] }

/-- A user document with no budget fields at all (unlimited). -/
def unlimitedState : AppState :=
  { dailyBugState with users := [("kid", {})] }

def stopKidUser : UserData := { id := some "kid", maxDailyMinutes := some 60 }

def stopFixtureState : AppState :=
  { dailyBugState with
    timerRunning := true
    timerStart := some ⟨2026, 3, 1, 11, 0, 0⟩
    currentKid := some stopKidUser }

def routineUser : UserData :=
  { id := some "kid", enforceLunchRoutine := some true,
    lunchStartTime := some "12:00", lunchEndTime := some "13:00" }

def badLunchUser : UserData := { routineUser with lunchStartTime := some "nonsense" }

def badHoursUser : UserData := { id := some "kid", allowedStartTime := some "25:99" }

def expiredRest : List (String × RestState) := [("kid", ⟨0, 60⟩)]

def overlapBase : List SessionEntry :=
  [⟨"2026-03-01 10:00:00", "2026-03-01 11:00:00", "01:00:00"⟩]

def overlapBase2 : List SessionEntry :=
  overlapBase ++ [⟨"2026-03-01 12:00:00", "2026-03-01 13:00:00", "01:00:00"⟩]

def quarterTo1March1 : DateTime := ⟨2026, 3, 1, 12, 45, 0⟩

end GameSentry

/-! ## Theorems -/

namespace GameSentry

/-- Claim C1: the spec says `_check_daily_limit` fires exactly when the daily
usage in seconds reaches `max_daily_minutes*60`, and never below it.  The code
compares the usage in seconds directly against the limit in minutes (no `*60`):
with a 60-minute limit and only 120 seconds of usage today (no flag set), the
LimitReached(daily) notification is raised even though 120 < 60*60. -/
theorem checkDailyLimit_fires_below_limit :
    dailyBugUser.maxDailyMinutes = some 60 ∧
    calculateDailyUsage dailyBugState noonMarch1 "kid" = 120 ∧
    dailyBugState.dailyFlags = [] ∧
    (checkDailyLimit dailyBugState noonMarch1 "kid").2 = some (60, 120) ∧
    (120 : Int) < 60 * 60 := by
  refine ⟨rfl, by decide, rfl, by decide, by decide⟩

/-- Claim C3: the spec says that once the wall clock passes the implied end of
a rest period, a call to `_check_rest_period_end` deletes the RestState and
raises RestEnded.  In the code, once `now` is at or past the implied end,
`_is_user_in_rest` is already false, so the check returns immediately: the
RestState is never deleted and no RestEnded event is raised at any such call
(the delete/notify branch is reachable only in the final sub-second of the
rest window, where the truncated remaining-seconds value is 0 while
`_is_user_in_rest` is still true). -/
theorem checkRestPeriodEnd_noop_after_expiry (rp : List (String × RestState))
    (userId : String) (r : RestState) (nowUs : Nat)
    (hfound : alookup rp userId = some r) (hpast : r.endUs ≤ (nowUs : Int)) :
    checkRestPeriodEnd rp userId nowUs = (rp, false) := by
  have hrest : isUserInRest rp userId nowUs = false := by
    simp [isUserInRest, hfound, not_lt.mpr hpast]
  simp [checkRestPeriodEnd, hrest]

/-- Witness for C3: a 60-minute rest that started at microsecond 0, checked
one second after its implied end — the entry survives and nothing is raised. -/
theorem checkRestPeriodEnd_noop_after_expiry_witness :
    checkRestPeriodEnd expiredRest "kid" 3601000000 = (expiredRest, false) :=
  checkRestPeriodEnd_noop_after_expiry expiredRest "kid" ⟨0, 60⟩ 3601000000
    (by decide) (by decide)

/-- Claim C4: the spec says the rest period started on a block-limit breach
lasts the user's configured `rest_minutes`, defaulting to 60 only when unset.
The settings form stores the cooldown under the key `rest_minutes`, but
`_check_block_limit` reads the never-written key `rest_duration_minutes`, so
the configured value is ignored: for a kid saved with `rest_minutes = 30`
whose block usage (120 min) reaches the 120-minute limit, the rest period
started lasts 60 minutes, not 30. -/
theorem checkBlockLimit_ignores_rest_minutes :
    restBugUser.restMinutes = some 30 ∧
    restBugUser.restDurationMinutes = none ∧
    calculateBlockUsage restBugState halfPastNoonMarch1 "kid" = 7200 ∧
    (checkBlockLimit restBugState halfPastNoonMarch1 "kid").2 = some (120, 120, 60) ∧
    alookup (checkBlockLimit restBugState halfPastNoonMarch1 "kid").1.restPeriods "kid"
      = some ⟨DateTime.epochSecs halfPastNoonMarch1 * 1000000, 60⟩ := by
  refine ⟨rfl, rfl, by decide, by decide, by decide⟩

/-- Counterexample for C5: the claim says a live session whose start falls
outside the window (here: started before midnight) contributes nothing to the
daily total.  In the code the live elapsed time is added with no window test
on the live start: a session started 2026-02-28 23:00 and still running at
2026-03-01 01:00 contributes its full 7200 seconds to March 1's daily usage
(without the live timer the total is 0). -/
theorem calculateDailyUsage_counts_stale_live_session :
    sameDate lateFebStart oneAmMarch1 = false ∧
    calculateDailyUsage crossMidnightState oneAmMarch1 "kid" = 7200 ∧
    calculateDailyUsage { crossMidnightState with timerRunning := false }
      oneAmMarch1 "kid" = 0 := by
  refine ⟨by decide, by decide, by decide⟩

/-- Claim C5 as amended: both usage calculators add the live session's elapsed
time `now - start` whenever the timer is running for the queried user,
unconditionally — the live session's own start is NOT tested against the
window predicate (for the block window this holds whenever the user is not
resting; while resting the block total is 0 regardless). -/
theorem calculateUsage_live_added_unconditionally :
    (∀ (s : AppState) (now : DateTime) (userId : String) (ts : DateTime),
      s.hasDb = true → s.timerRunning = true → s.timerStart = some ts →
      s.currentKid.bind (fun u => u.id) = some userId →
      calculateDailyUsage s now userId =
        calculateDailyUsage { s with timerRunning := false } now userId
          + ((now.epochSecs : Int) - ts.epochSecs)) ∧
    (∀ (s : AppState) (now : DateTime) (userId : String) (ts : DateTime)
      (u : UserData),
      s.hasDb = true → s.timerRunning = true → s.timerStart = some ts →
      s.currentKid.bind (fun u => u.id) = some userId →
      getUser s userId = some u →
      isUserInRest s.restPeriods userId (now.epochSecs * 1000000) = false →
      calculateBlockUsage s now userId =
        calculateBlockUsage { s with timerRunning := false } now userId
          + ((now.epochSecs : Int) - ts.epochSecs)) := by
  constructor
  · intro s now userId ts hdb hrun hstart hkid
    simp [calculateDailyUsage, addLiveElapsed, getSessionLogs, hdb, hrun, hstart, hkid]
  · intro s now userId ts u hdb hrun hstart hkid huser hrest
    simp only [getUser, hdb, Bool.not_true, Bool.false_eq_true, if_false] at huser
    simp [calculateBlockUsage, addLiveElapsed, getSessionLogs, lastRestEndUs,
      getUser, hdb, hrun, hstart, hkid, huser, hrest]

/-- Witness for the amended C5: the cross-midnight fixture, via the theorem. -/
theorem calculateUsage_live_added_unconditionally_witness :
    calculateDailyUsage crossMidnightState oneAmMarch1 "kid" =
      calculateDailyUsage { crossMidnightState with timerRunning := false }
        oneAmMarch1 "kid"
        + ((oneAmMarch1.epochSecs : Int) - lateFebStart.epochSecs) :=
  calculateUsage_live_added_unconditionally.1 crossMidnightState oneAmMarch1
    "kid" lateFebStart rfl rfl rfl (by decide)

/-- Claim C2: the spec says stopping a running session appends the interval
and then triggers BOTH the daily-limit and the block-limit check.  The stop
branch of `start_stop_timer` performs exactly persist / stop-notification /
`_check_daily_limit`; `_check_block_limit` is defined but invoked nowhere in
the program, so no stop (and no other event) ever triggers it. -/
theorem stopTimer_triggers_only_daily_check (s : AppState) (now st : DateTime)
    (ku : UserData) (hstart : s.timerStart = some st)
    (hkid : s.currentKid = some ku) (hid : optTruthy ku.id = true) :
    (stopTimer s now).2 =
      [.persistSession, .stopNotifications, .dailyLimitCheck] ∧
    StopAction.blockLimitCheck ∉ (stopTimer s now).2 := by
  have h2 : (stopTimer s now).2 =
      [.persistSession, .stopNotifications, .dailyLimitCheck] := by
    simp [stopTimer, hstart, hkid, hid]
  exact ⟨h2, by rw [h2]; decide⟩

/-- Witness for C2: a concrete running session stopped at noon. -/
theorem stopTimer_triggers_only_daily_check_witness :
    (stopTimer stopFixtureState noonMarch1).2 =
      [.persistSession, .stopNotifications, .dailyLimitCheck] ∧
    StopAction.blockLimitCheck ∉ (stopTimer stopFixtureState noonMarch1).2 :=
  stopTimer_triggers_only_daily_check stopFixtureState noonMarch1
    ⟨2026, 3, 1, 11, 0, 0⟩ stopKidUser rfl rfl (by decide)

/-- Claim C6: the allowed-hours gate permits a start iff the current time of
day is in range — `start <= now <= end` for a normal range, `now >= start` or
`now <= end` for an overnight range — with inclusive boundaries; in particular
with 22:00–06:00, 23:30 is in range, 12:00 is not, and 06:00 exactly is. -/
theorem inAllowedRange_spec :
    (∀ st en n : Time, st.toSecs ≤ en.toSecs →
      (inAllowedRange st en n = true ↔ st.toSecs ≤ n.toSecs ∧ n.toSecs ≤ en.toSecs)) ∧
    (∀ st en n : Time, en.toSecs < st.toSecs →
      (inAllowedRange st en n = true ↔ st.toSecs ≤ n.toSecs ∨ n.toSecs ≤ en.toSecs)) ∧
    (∀ (u : UserData) (conf : List (Option String × Date)) (now : DateTime)
      (la ta : Bool) (ast aet : Time),
      (isLunchRoutineRequired (some u) conf now la ta).required = false →
      parseHM (u.allowedStartTime.getD "15:00") = some ast →
      parseHM (u.allowedEndTime.getD "18:00") = some aet →
      ((attemptStart (some u) conf now la ta).1 = .started ↔
        inAllowedRange ast aet now.timeOf = true)) ∧
    parseHM "22:00" = some ⟨22, 0, 0⟩ ∧ parseHM "06:00" = some ⟨6, 0, 0⟩ ∧
    inAllowedRange ⟨22, 0, 0⟩ ⟨6, 0, 0⟩ ⟨23, 30, 0⟩ = true ∧
    inAllowedRange ⟨22, 0, 0⟩ ⟨6, 0, 0⟩ ⟨12, 0, 0⟩ = false ∧
    inAllowedRange ⟨22, 0, 0⟩ ⟨6, 0, 0⟩ ⟨6, 0, 0⟩ = true := by
  refine ⟨?_, ?_, ?_, by decide, by decide, by decide, by decide, by decide⟩
  · intro st en n h
    simp [inAllowedRange, timeLe, h]
  · intro st en n h
    simp [inAllowedRange, timeLe, not_le.mpr h]
  · intro u conf now la ta ast aet hreq hs he
    cases hin : inAllowedRange ast aet now.timeOf <;>
      simp [attemptStart, hreq, hs, he, hin]

/-- Witness for C6: 16:00 is inside the default 15:00–18:00 window. -/
theorem inAllowedRange_spec_witness :
    inAllowedRange ⟨15, 0, 0⟩ ⟨18, 0, 0⟩ ⟨16, 0, 0⟩ = true :=
  (inAllowedRange_spec.1 ⟨15, 0, 0⟩ ⟨18, 0, 0⟩ ⟨16, 0, 0⟩ (by decide)).mpr
    (by decide)

/-- Claim C7: the two time-of-day gates fail asymmetrically on unparsable
configuration.  An unparsable `allowed_start_time`/`allowed_end_time` blocks
the start (fail closed, the "hours are not set correctly" outcome); an
unparsable `lunch_start_time`/`lunch_end_time` turns the routine gate into a
no-op (fail open): nothing is asked, nothing blocked, nothing recorded. -/
theorem gates_fail_asymmetrically :
    (∀ (u : UserData) (conf : List (Option String × Date)) (now : DateTime)
      (la ta : Bool),
      (isLunchRoutineRequired (some u) conf now la ta).required = false →
      (parseHM (u.allowedStartTime.getD "15:00") = none ∨
       parseHM (u.allowedEndTime.getD "18:00") = none) →
      (attemptStart (some u) conf now la ta).1 = .invalidConfig) ∧
    (∀ (u : UserData) (conf : List (Option String × Date)) (now : DateTime)
      (la ta : Bool),
      (parseHM (u.lunchStartTime.getD "12:00") = none ∨
       parseHM (u.lunchEndTime.getD "13:00") = none) →
      isLunchRoutineRequired (some u) conf now la ta = ⟨false, false, false, conf⟩) := by
  constructor
  · intro u conf now la ta hreq hbad
    rcases hbad with h | h
    · cases he : parseHM (u.allowedEndTime.getD "18:00") <;>
        simp [attemptStart, hreq, h, he]
    · cases hs : parseHM (u.allowedStartTime.getD "15:00") <;>
        simp [attemptStart, hreq, h, hs]
  · intro u conf now la ta hbad
    cases henf : u.enforceLunchRoutine.getD false
    · simp [isLunchRoutineRequired, henf]
    · rcases hbad with h | h
      · cases he : parseHM (u.lunchEndTime.getD "13:00") <;>
          simp [isLunchRoutineRequired, henf, h, he]
      · cases hs : parseHM (u.lunchStartTime.getD "12:00") <;>
          simp [isLunchRoutineRequired, henf, h, hs]

/-- Witness for C7: `25:99` allowed hours block the start; a `nonsense` lunch
start leaves the routine gate inert. -/
theorem gates_fail_asymmetrically_witness :
    (attemptStart (some badHoursUser) [] noonMarch1 true true).1 = .invalidConfig ∧
    isLunchRoutineRequired (some badLunchUser) [] halfPastNoonMarch1 true false
      = ⟨false, false, false, []⟩ :=
  ⟨gates_fail_asymmetrically.1 badHoursUser [] noonMarch1 true true (by decide)
      (Or.inl (by decide)),
   gates_fail_asymmetrically.2 badLunchUser [] halfPastNoonMarch1 true false
      (Or.inl (by decide))⟩

/-- Claim C8: the lunch/teeth routine flow inside the lunch window when the
routine is enforced and lunch is not yet confirmed today: answering "no" to
lunch asks nothing further and does not block; answering "yes" records the
confirmation for today and immediately asks the teeth question, whose "no"
blocks the start and "yes" permits it; and once confirmed, a later attempt
skips the lunch question and asks only the teeth question. -/
theorem lunchRoutine_flow :
    (∀ (u : UserData) (conf : List (Option String × Date)) (now : DateTime)
      (ls le : Time) (ta : Bool),
      u.enforceLunchRoutine.getD false = true →
      parseHM (u.lunchStartTime.getD "12:00") = some ls →
      parseHM (u.lunchEndTime.getD "13:00") = some le →
      (timeLe ls now.timeOf && timeLe now.timeOf le) = true →
      (alookup conf u.id == some now.dateOf) = false →
      isLunchRoutineRequired (some u) conf now false ta = ⟨false, true, false, conf⟩) ∧
    (∀ (u : UserData) (conf : List (Option String × Date)) (now : DateTime)
      (ls le : Time) (ta : Bool),
      u.enforceLunchRoutine.getD false = true →
      parseHM (u.lunchStartTime.getD "12:00") = some ls →
      parseHM (u.lunchEndTime.getD "13:00") = some le →
      (timeLe ls now.timeOf && timeLe now.timeOf le) = true →
      (alookup conf u.id == some now.dateOf) = false →
      isLunchRoutineRequired (some u) conf now true ta =
        ⟨!ta, true, true,
         (u.id, now.dateOf) :: conf.filter (fun p => p.1 != u.id)⟩) ∧
    (∀ (u : UserData) (conf : List (Option String × Date)) (now : DateTime)
      (ls le : Time) (la ta : Bool),
      u.enforceLunchRoutine.getD false = true →
      parseHM (u.lunchStartTime.getD "12:00") = some ls →
      parseHM (u.lunchEndTime.getD "13:00") = some le →
      (timeLe ls now.timeOf && timeLe now.timeOf le) = true →
      (alookup conf u.id == some now.dateOf) = true →
      isLunchRoutineRequired (some u) conf now la ta = ⟨!ta, false, true, conf⟩) ∧
    (∀ (u : UserData) (conf : List (Option String × Date)) (now : DateTime)
      (ls le : Time),
      u.enforceLunchRoutine.getD false = true →
      parseHM (u.lunchStartTime.getD "12:00") = some ls →
      parseHM (u.lunchEndTime.getD "13:00") = some le →
      (timeLe ls now.timeOf && timeLe now.timeOf le) = true →
      (alookup conf u.id == some now.dateOf) = false →
      (attemptStart (some u) conf now true false).1 = .routineBlocked ∧
      alookup (attemptStart (some u) conf now true false).2 u.id
        = some now.dateOf) := by
  refine ⟨?_, ?_, ?_, ?_⟩
  · intro u conf now ls le ta henf hs he hwin hconf
    simp [isLunchRoutineRequired, henf, hs, he, hwin, hconf]
  · intro u conf now ls le ta henf hs he hwin hconf
    simp [isLunchRoutineRequired, henf, hs, he, hwin, hconf]
  · intro u conf now ls le la ta henf hs he hwin hconf
    simp [isLunchRoutineRequired, henf, hs, he, hwin, hconf]
  · intro u conf now ls le henf hs he hwin hconf
    have hr : isLunchRoutineRequired (some u) conf now true false =
        ⟨true, true, true,
         (u.id, now.dateOf) :: conf.filter (fun p => p.1 != u.id)⟩ := by
      simp [isLunchRoutineRequired, henf, hs, he, hwin, hconf]
    constructor
    · simp [attemptStart, hr]
    · simp [attemptStart, hr, alookup]

/-- Witness for C8: the 12:30 scenario (lunch "yes", teeth "no") blocks the
start and records the confirmation; the 12:45 retry asks only about teeth. -/
theorem lunchRoutine_flow_witness :
    ((attemptStart (some routineUser) [] halfPastNoonMarch1 true false).1
      = .routineBlocked ∧
     alookup (attemptStart (some routineUser) [] halfPastNoonMarch1 true false).2
       routineUser.id = some halfPastNoonMarch1.dateOf) ∧
    isLunchRoutineRequired (some routineUser) [(some "kid", ⟨2026, 3, 1⟩)]
      quarterTo1March1 true true
      = ⟨false, false, true, [(some "kid", ⟨2026, 3, 1⟩)]⟩ :=
  ⟨lunchRoutine_flow.2.2.2 routineUser [] halfPastNoonMarch1 ⟨12, 0, 0⟩
      ⟨13, 0, 0⟩ (by decide) (by decide) (by decide) (by decide) (by decide),
   lunchRoutine_flow.2.2.1 routineUser [(some "kid", ⟨2026, 3, 1⟩)]
      quarterTo1March1 ⟨12, 0, 0⟩ ⟨13, 0, 0⟩ true true (by decide) (by decide)
      (by decide) (by decide) (by decide)⟩

/-- The enumerate-with-skip scan finds a true overlap at any index other than
the skipped one. -/
theorem overlapsOtherIdx_of_mem (sd od : DateTime) :
    ∀ (l : List SessionEntry) (cur skip i : Nat) (e : SessionEntry),
      l.get? i = some e → cur + i ≠ skip → overlapPred sd od e = true →
      overlapsOtherIdx l cur skip sd od = true := by
  intro l
  induction l with
  | nil => intro cur skip i e hget hne hpred; simp at hget
  | cons x xs ih =>
    intro cur skip i e hget hne hpred
    cases i with
    | zero =>
      have hx : x = e := by simpa using hget
      have hcur : (cur != skip) = true := by
        simpa using (by omega : cur ≠ skip)
      simp [overlapsOtherIdx, hcur, hx, hpred]
    | succ n =>
      have hrec : overlapsOtherIdx xs (cur + 1) skip sd od = true :=
        ih (cur + 1) skip n e (by simpa using hget) (by omega) hpred
      simp [overlapsOtherIdx, hrec]

/-- Claim C9: a manually added or edited interval that overlaps an existing
(parsable) interval of the same user — `new.start < other.stop` and
`new.stop > other.start` — is rejected: neither writer stores anything, so
the session log is left unchanged. -/
theorem overlapping_writes_rejected :
    (∀ (sessions : List SessionEntry) (dateStr startStr stopStr : String)
      (sd st0 od os ot : DateTime) (other : SessionEntry),
      parseDateTimeHM (dateStr ++ " " ++ startStr) = some sd →
      parseDateTimeHM (dateStr ++ " " ++ stopStr) = some st0 →
      od = (if st0.epochSecs < sd.epochSecs then st0.addOneDay else st0) →
      other ∈ sessions →
      parseDateTime other.start = some os →
      parseDateTime other.stop = some ot →
      sd.epochSecs < ot.epochSecs → od.epochSecs > os.epochSecs →
      manualEntrySave sessions dateStr startStr stopStr = none) ∧
    (∀ (sessions : List SessionEntry) (sessionIdx : Nat)
      (newStart newStop newDuration : String) (sd od os ot : DateTime)
      (i : Nat) (other : SessionEntry),
      parseDateTime newStart = some sd → parseDateTime newStop = some od →
      sessions.get? i = some other → i ≠ sessionIdx →
      parseDateTime other.start = some os →
      parseDateTime other.stop = some ot →
      sd.epochSecs < ot.epochSecs → od.epochSecs > os.epochSecs →
      editSelectedLog sessions sessionIdx newStart newStop newDuration = none) := by
  constructor
  · intro sessions dateStr startStr stopStr sd st0 od os ot other h1 h2 hod
      hmem hos hot hlt1 hlt2
    have hover : overlapPred sd od other = true := by
      simp only [overlapPred, hos, hot]
      simp [hlt1, hlt2]
    have hany : sessions.any (overlapPred sd od) = true :=
      List.any_eq_true.mpr ⟨other, hmem, hover⟩
    simp [manualEntrySave, h1, h2, ← hod, hany, ite_self]
  · intro sessions sessionIdx newStart newStop newDuration sd od os ot i other
      h1 h2 hget hne hos hot hlt1 hlt2
    have hover : overlapPred sd od other = true := by
      simp only [overlapPred, hos, hot]
      simp [hlt1, hlt2]
    have hscan : overlapsOtherIdx sessions 0 sessionIdx sd od = true :=
      overlapsOtherIdx_of_mem sd od sessions 0 sessionIdx i other hget
        (by omega) hover
    by_cases hlen : sessionIdx < sessions.length
    · simp [editSelectedLog, hlen, h1, h2, hscan, ite_self]
    · simp [editSelectedLog, hlen]

/-- Witness for C9: a 10:30–11:30 manual entry over an existing 10:00–11:00
one is rejected, and so is editing the 12:00–13:00 entry to 10:30–12:30 over
its 10:00–11:00 neighbour. -/
theorem overlapping_writes_rejected_witness :
    manualEntrySave overlapBase "2026-03-01" "10:30" "11:30" = none ∧
    editSelectedLog overlapBase2 1 "2026-03-01 10:30:00" "2026-03-01 12:30:00"
      "02:00:00" = none :=
  ⟨overlapping_writes_rejected.1 overlapBase "2026-03-01" "10:30" "11:30"
      ⟨2026, 3, 1, 10, 30, 0⟩ ⟨2026, 3, 1, 11, 30, 0⟩ ⟨2026, 3, 1, 11, 30, 0⟩
      ⟨2026, 3, 1, 10, 0, 0⟩ ⟨2026, 3, 1, 11, 0, 0⟩
      ⟨"2026-03-01 10:00:00", "2026-03-01 11:00:00", "01:00:00"⟩
      (by decide) (by decide) (by decide) (by decide) (by decide) (by decide)
      (by decide) (by decide),
   overlapping_writes_rejected.2 overlapBase2 1 "2026-03-01 10:30:00"
      "2026-03-01 12:30:00" "02:00:00" ⟨2026, 3, 1, 10, 30, 0⟩
      ⟨2026, 3, 1, 12, 30, 0⟩ ⟨2026, 3, 1, 10, 0, 0⟩ ⟨2026, 3, 1, 11, 0, 0⟩ 0
      ⟨"2026-03-01 10:00:00", "2026-03-01 11:00:00", "01:00:00"⟩
      (by decide) (by decide) (by decide) (by decide) (by decide) (by decide)
      (by decide) (by decide)⟩

/-- Claim C10: with `max_daily_minutes` absent the daily-remaining
computation returns 0 — the same value as a fully exhausted budget, so the
formatted output ("No time left") cannot distinguish the two — and the
computation never returns a negative value. -/
theorem dailyRemaining_collapses_unlimited_and_exhausted :
    (∀ (s : AppState) (now : DateTime) (userId : String) (u : UserData),
      getUser s userId = some u → u.maxDailyMinutes = none →
      calculateDailyRemaining s now userId = 0) ∧
    (∀ (s : AppState) (now : DateTime) (userId : String),
      0 ≤ calculateDailyRemaining s now userId) ∧
    (∀ (s : AppState) (now : DateTime) (userId : String) (u : UserData),
      getUser s userId = some u → u.maxDailyMinutes = none →
      formatTimeRemaining (calculateDailyRemaining s now userId)
        = "No time left") ∧
    (getUser exhaustedState "kid").map (fun u => u.maxDailyMinutes)
      = some (some 60) ∧
    calculateDailyRemaining exhaustedState noonMarch1 "kid" = 0 ∧
    formatTimeRemaining (calculateDailyRemaining exhaustedState noonMarch1 "kid")
      = "No time left" := by
  have p1 : ∀ (s : AppState) (now : DateTime) (userId : String) (u : UserData),
      getUser s userId = some u → u.maxDailyMinutes = none →
      calculateDailyRemaining s now userId = 0 := by
    intro s now userId u hu hnone
    cases hdb : s.hasDb
    · simp [getUser, hdb] at hu
    · simp [calculateDailyRemaining, hdb, hu, hnone]
  refine ⟨p1, ?_, ?_, by decide, by decide, by decide⟩
  · intro s now userId
    unfold calculateDailyRemaining
    split
    · exact le_refl 0
    · split
      · exact le_refl 0
      · split
        · exact le_refl 0
        · exact le_max_left 0 _
  · intro s now userId u hu hnone
    rw [p1 s now userId u hu hnone]
    rfl

/-- Witness for C10: a user document with no budget fields reads as 0
remaining. -/
theorem dailyRemaining_collapses_unlimited_and_exhausted_witness :
    calculateDailyRemaining unlimitedState noonMarch1 "kid" = 0 :=
  dailyRemaining_collapses_unlimited_and_exhausted.1 unlimitedState noonMarch1
    "kid" { id := some "kid" } (by decide) rfl

end GameSentry
